import Mathlib

/-
  Verification of the TP-Link cloud client library
  (src/tplink_cloud_api.py, class TPLink).

  Shallow embedding: Python dicts produced by json.loads are modelled by
  the inductive type J below; a Python dict preserves insertion order, so
  objects carry an ordered association list.  Network transport
  (urllib.request.urlopen followed by read and json.loads) is modelled by
  an oracle of type Transport, mapping each request to either none (a
  falsy response object, the if-not-response branch) or to the raw
  decoded body together with its parsed JSON.  Each method of the TPLink
  class becomes a function that takes the client state and the transport,
  and returns its result together with the updated state and the list of
  observable events (network requests issued, sleeps performed).
  Python exceptions (KeyError, RuntimeError, TypeError) are modelled by
  the Except monad with error type Err.
-/

/-- A JSON value as produced by json.loads: null, bool, integer, string,
array, or object with ordered fields.  (Floats do not occur in any
payload this client consumes, so numbers are integers here.) -/
inductive J where
  | null : J
  | b (v : Bool) : J
  | num (n : Int) : J
  | str (s : String) : J
  | arr (xs : List J) : J
  | obj (fields : List (String × J)) : J

/-- Python exceptions raised by the client code: KeyError from a missing
dict key, RuntimeError raised explicitly, TypeError from an operation on
a value of the wrong type. -/
inductive Err where
  | keyError (k : String) : Err
  | runtimeError (msg : String) : Err
  | typeError : Err
deriving DecidableEq, Repr

/-- Lookup of a key in an ordered field list: first binding wins. -/
def jget : List (String × J) → String → Option J
  | [], _ => none
  | (k', v) :: rest, k => if k' = k then some v else jget rest k

/-- Python d[k] read as a partial operation: some v when the object has
the key, none otherwise (also none on a non-object, where CPython would
raise TypeError instead of KeyError; no claim distinguishes the two). -/
def J.get : J → String → Option J
  | .obj fields, k => jget fields k
  | _, _ => none

/-- Python d[k]: the value, or a KeyError naming the missing key. -/
def J.getE (j : J) (k : String) : Except Err J :=
  match j.get k with
  | some v => .ok v
  | none => .error (.keyError k)

/-- Python truthiness of a JSON value: None, False, 0, the empty string,
the empty list and the empty dict are falsy, everything else truthy. -/
def J.truthy : J → Bool
  | .null => false
  | .b v => v
  | .num n => n != 0
  | .str s => !(s == "")
  | .arr xs => !xs.isEmpty
  | .obj fields => !fields.isEmpty

/-- Truthiness of an optional JSON value, with none modelling Python
None (falsy). -/
def truthyOpt : Option J → Bool
  | none => false
  | some j => j.truthy

/-- Python equality of a JSON value against an int literal
(True == 1 and False == 0 hold in Python). -/
def pyEqInt : J → Int → Bool
  | .num n, m => n == m
  | .b true, m => m == 1
  | .b false, m => m == 0
  | _, _ => false

/-- Python equality of a JSON value against a str literal: only an equal
string compares equal. -/
def pyEqStr : J → String → Bool
  | .str s, t => s == t
  | _, _ => false

/-- The request dictionary handed to send_request: HTTP method, target
URL, ordered query parameters, ordered headers, and the JSON body. -/
structure Request where
  method : String
  url : String
  params : List (String × String)
  headers : List (String × String)
  data : J

/-- An observable side effect of a client call: a network request issued
through urlopen, or a time.sleep of the given number of seconds. -/
inductive Event where
  | request (r : Request) : Event
  | sleep (seconds : Nat) : Event

/-- The network oracle: none models a falsy response object, some (raw,
parsed) gives the decoded body text and its parsed JSON. -/
def Transport : Type := Request → Option (String × J)

/-- The client state: the four attributes assigned on self by the TPLink
class.  device_list is None before the first successful fetch. -/
structure TPLink where
  username : String
  password : String
  token : String
  device_list : Option J

namespace TPLink

/-- TPLink.form_url: url = request url + "?", then for each param append
key + "=" + value + "&", finally drop the last character (url[:-1]). -/
def form_url (request : Request) : String :=
  let url := request.url ++ "?"
  let url := request.params.foldl (fun u p => u ++ p.1 ++ "=" ++ p.2 ++ "&") url
  url.dropRight 1

/-- TPLink.send_request: form the URL, POST the JSON body, and parse the
response.  A falsy response yields the dict with the Null-response error
entry; a response whose error_code is nonzero yields the dict holding
the raw body under the error key (returned, not raised); otherwise the
result field is returned.  Exactly one request event is emitted. -/
def send_request (t : Transport) (request : Request) : Except Err J × List Event :=
  let _ := form_url request
  match t request with
  | none => (.ok (J.obj [("error", J.str "Null response from server")]), [.request request])
  | some (raw, json_response) =>
    match json_response.getE "error_code" with
    | .error e => (.error e, [.request request])
    | .ok ec =>
      if !(pyEqInt ec 0) then
        (.ok (J.obj [("error", J.str raw)]), [.request request])
      else
        match json_response.getE "result" with
        | .error e => (.error e, [.request request])
        | .ok r => (.ok r, [.request request])

/-- The spoofed mobile user-agent header value used on every request. -/
def userAgent : String :=
  "Dalvik/2.1.0 (Linux; U; Android 6.0.1; A0001 Build/M4B30X)"

/-- The fixed app-identity query parameters, in source order. -/
def baseParams : List (String × String) :=
  [ ("appName", "Kasa_Android")
  , ("termID", "TermID")
  , ("appVer", "1.4.4.607")
  , ("ospf", "Android+6.0.1")
  , ("netType", "wifi")
  , ("locale", "es_ES") ]

/-- The request dictionary built by TPLink.__init__ for the login call. -/
def login_request (username password : String) : Request :=
  { method := "POST"
  , url := "https://wap.tplinkcloud.com"
  , params := baseParams
  , data := J.obj
      [ ("method", J.str "login")
      , ("url", J.str "https://wap.tplinkcloud.com")
      , ("params", J.obj
          [ ("appType", J.str "Kasa_Android")
          , ("cloudPassword", J.str password)
          , ("cloudUserName", J.str username)
          , ("terminalUUID", J.str "TermID") ]) ]
  , headers :=
      [ ("User-Agent", userAgent)
      , ("Content-Type", "application/json") ] }

/-- The request dictionary built by TPLink.get_device_list. -/
def device_list_request (token : String) : Request :=
  { method := "POST"
  , url := "https://wap.tplinkcloud.com"
  , params := baseParams ++ [("token", token)]
  , headers :=
      [ ("User-Agent", userAgent)
      , ("Content-Type", "application/json") ]
  , data := J.obj [("method", J.str "getDeviceList")] }

/-- The passthrough request dictionary built by TPLink.set_relay_state,
addressed to the appServerUrl of the resolved device. -/
def relay_request (token : String) (url : String) (deviceId : J) (state : Int) : Request :=
  { method := "POST"
  , url := url
  , params := baseParams ++ [("token", token)]
  , headers :=
      [ ("cache-control", "no-cache")
      , ("User-Agent", userAgent)
      , ("Content-Type", "application/json") ]
  , data := J.obj
      [ ("method", J.str "passthrough")
      , ("params", J.obj
          [ ("deviceId", deviceId)
          , ("requestData", J.obj
              [ ("system", J.obj
                  [ ("set_relay_state", J.obj [("state", J.num state)]) ]) ]) ]) ] }

/-- The passthrough request dictionary built by TPLink.get_sys_info,
addressed to the appServerUrl of the resolved device. -/
def sysinfo_request (token : String) (url : String) (deviceId : J) : Request :=
  { method := "POST"
  , url := url
  , params := baseParams ++ [("token", token)]
  , headers :=
      [ ("cache-control", "no-cache")
      , ("User-Agent", userAgent)
      , ("Content-Type", "application/json") ]
  , data := J.obj
      [ ("method", J.str "passthrough")
      , ("params", J.obj
          [ ("deviceId", deviceId)
          , ("requestData", J.obj
              [ ("system", J.obj [("get_sysinfo", J.null)])
              , ("emeter", J.obj [("get_realtime", J.null)]) ]) ]) ] }

/-- The loop body of TPLink.get_device: scan the device list in order,
return the first device whose alias entry compares equal (Python ==,
hence exact and case-sensitive) to the requested alias; reading the
alias entry of a scanned device can raise KeyError. -/
def find_loop : List J → String → Except Err (Option J)
  | [], _ => .ok none
  | d :: rest, alias_ =>
    match d.getE "alias" with
    | .error e => .error e
    | .ok a => if pyEqStr a alias_ then .ok (some d) else find_loop rest alias_

/-- Iterating over self.device_list: it must be a JSON array (iterating
None or a non-list raises TypeError in Python). -/
def iterList : Option J → Except Err (List J)
  | some (J.arr xs) => .ok xs
  | _ => .error .typeError

/-- TPLink.get_device: linear scan of self.device_list for the alias,
returning None (here: none) when no device matches. -/
def get_device (s : TPLink) (alias_ : String) : Except Err (Option J) :=
  match iterList s.device_list with
  | .error e => .error e
  | .ok l => find_loop l alias_

/-- The fetch path of TPLink.get_device_list: send the getDeviceList
request, extract result["deviceList"], store it on self, return it. -/
def fetch_device_list (t : Transport) (s : TPLink) :
    Except Err J × TPLink × List Event :=
  match send_request t (device_list_request s.token) with
  | (.error e, evs) => (.error e, s, evs)
  | (.ok result, evs) =>
    match result.getE "deviceList" with
    | .error e => (.error e, s, evs)
    | .ok dl => (.ok dl, { s with device_list := some dl }, evs)

/-- TPLink.get_device_list: if self.device_list is truthy (a nonempty
list) return it without touching the network; otherwise fetch. -/
def get_device_list (t : Transport) (s : TPLink) :
    Except Err J × TPLink × List Event :=
  match s.device_list with
  | some dl => if dl.truthy then (.ok dl, s, []) else fetch_device_list t s
  | none => fetch_device_list t s

/-- TPLink.__init__: send the login request, store result["token"] (the
token must be a string to be usable as a query parameter), then eagerly
fetch and store the device list. -/
def init (t : Transport) (username password : String) :
    Except Err TPLink × List Event :=
  match send_request t (login_request username password) with
  | (.error e, evs) => (.error e, evs)
  | (.ok result, evs) =>
    match result.getE "token" with
    | .error e => (.error e, evs)
    | .ok (J.str token) =>
      let s0 : TPLink :=
        { username := username, password := password
        , token := token, device_list := none }
      match get_device_list t s0 with
      | (.error e, _, evs2) => (.error e, evs ++ evs2)
      | (.ok dl, s1, evs2) => (.ok { s1 with device_list := some dl }, evs ++ evs2)
    | .ok _ => (.error .typeError, evs)

/-- TPLink.set_relay_state: resolve the alias (raising RuntimeError when
the lookup result is falsy), build the passthrough request against the
appServerUrl of the device, send it, return result["responseData"]. -/
def set_relay_state (t : Transport) (s : TPLink) (alias_ : String) (state : Int) :
    Except Err J × TPLink × List Event :=
  match get_device s alias_ with
  | .error e => (.error e, s, [])
  | .ok none => (.error (.runtimeError ("Cannot find device: " ++ alias_)), s, [])
  | .ok (some device) =>
    if !device.truthy then
      (.error (.runtimeError ("Cannot find device: " ++ alias_)), s, [])
    else
      match device.getE "appServerUrl" with
      | .error e => (.error e, s, [])
      | .ok (J.str url) =>
        match device.getE "deviceId" with
        | .error e => (.error e, s, [])
        | .ok did =>
          match send_request t (relay_request s.token url did state) with
          | (.error e, evs) => (.error e, s, evs)
          | (.ok result, evs) =>
            match result.getE "responseData" with
            | .error e => (.error e, s, evs)
            | .ok rd => (.ok rd, s, evs)
      | .ok _ => (.error .typeError, s, [])

/-- TPLink.turn_on: set_relay_state with state 1. -/
def turn_on (t : Transport) (s : TPLink) (alias_ : String) :
    Except Err J × TPLink × List Event :=
  set_relay_state t s alias_ 1

/-- TPLink.turn_off: set_relay_state with state 0. -/
def turn_off (t : Transport) (s : TPLink) (alias_ : String) :
    Except Err J × TPLink × List Event :=
  set_relay_state t s alias_ 0

/-- TPLink.powercycle: turn_off, time.sleep(5), turn_on, return the
string Done. -/
def powercycle (t : Transport) (s : TPLink) (alias_ : String) :
    Except Err String × TPLink × List Event :=
  match turn_off t s alias_ with
  | (.error e, s1, evs1) => (.error e, s1, evs1)
  | (.ok _, s1, evs1) =>
    match turn_on t s1 alias_ with
    | (.error e, s2, evs2) => (.error e, s2, evs1 ++ [Event.sleep 5] ++ evs2)
    | (.ok _, s2, evs2) => (.ok "Done", s2, evs1 ++ [Event.sleep 5] ++ evs2)

/-- TPLink.get_sys_info: resolve the alias (raising RuntimeError when the
lookup result is falsy), build the dual get_sysinfo and get_realtime
passthrough request, send it, return result["responseData"]. -/
def get_sys_info (t : Transport) (s : TPLink) (alias_ : String) :
    Except Err J × TPLink × List Event :=
  match get_device s alias_ with
  | .error e => (.error e, s, [])
  | .ok none => (.error (.runtimeError ("Cannot find device: " ++ alias_)), s, [])
  | .ok (some device) =>
    if !device.truthy then
      (.error (.runtimeError ("Cannot find device: " ++ alias_)), s, [])
    else
      match device.getE "appServerUrl" with
      | .error e => (.error e, s, [])
      | .ok (J.str url) =>
        match device.getE "deviceId" with
        | .error e => (.error e, s, [])
        | .ok did =>
          match send_request t (sysinfo_request s.token url did) with
          | (.error e, evs) => (.error e, s, evs)
          | (.ok result, evs) =>
            match result.getE "responseData" with
            | .error e => (.error e, s, evs)
            | .ok rd => (.ok rd, s, evs)
      | .ok _ => (.error .typeError, s, [])

/-- TPLink.is_on: get_sys_info, then compare the value at
system.get_sysinfo.relay_state against 1 with Python ==. -/
def is_on (t : Transport) (s : TPLink) (alias_ : String) :
    Except Err Bool × TPLink × List Event :=
  match get_sys_info t s alias_ with
  | (.error e, s1, evs) => (.error e, s1, evs)
  | (.ok state, s1, evs) =>
    match state.getE "system" with
    | .error e => (.error e, s1, evs)
    | .ok sys =>
      match sys.getE "get_sysinfo" with
      | .error e => (.error e, s1, evs)
      | .ok info =>
        match info.getE "relay_state" with
        | .error e => (.error e, s1, evs)
        | .ok v => (.ok (pyEqInt v 1), s1, evs)

/-- TPLink.is_off: the Boolean negation of is_on. -/
def is_off (t : Transport) (s : TPLink) (alias_ : String) :
    Except Err Bool × TPLink × List Event :=
  match is_on t s alias_ with
  | (.error e, s1, evs) => (.error e, s1, evs)
  | (.ok v, s1, evs) => (.ok (!v), s1, evs)

end TPLink

/-
  Concrete fixtures used by counterexamples and witnesses: a single Lamp
  device as in the end-to-end example of the spec, and stub transports.
-/

/-- A device record with the minimum fields the client consumes. -/
def lampDevice : J :=
  J.obj
    [ ("alias", J.str "Lamp")
    , ("deviceId", J.str "D1")
    , ("appServerUrl", J.str "https://x")
    , ("deviceName", J.str "Lamp Plug")
    , ("status", J.num 1) ]

/-- A client state holding the cached one-device list. -/
def sLamp : TPLink :=
  { username := "u", password := "p", token := "T1"
  , device_list := some (J.arr [lampDevice]) }

/-- A client state before any device-list fetch. -/
def sFresh : TPLink :=
  { username := "u", password := "p", token := "T1", device_list := none }

/-- The raw body of the stub error response. -/
def errBody : String := "\x7b\"error_code\": 1\x7d"

/-- A stub transport answering every request with error_code 1. -/
def errTransport : Transport :=
  fun _ => some (errBody, J.obj [("error_code", J.num 1)])

/-- A stub transport answering every request successfully with an empty
responseData object. -/
def okRelayTransport : Transport :=
  fun _ => some
    ("ok", J.obj
      [ ("error_code", J.num 0)
      , ("result", J.obj [("responseData", J.obj [("ignored", J.num 7)])]) ])

/-- A stub transport whose getDeviceList result is the empty list. -/
def emptyListTransport : Transport :=
  fun _ => some
    ("ok", J.obj
      [ ("error_code", J.num 0)
      , ("result", J.obj [("deviceList", J.arr [])]) ])

/-- A second device that shares the Lamp alias (different deviceId),
for the duplicate-alias lookup claim. -/
def lampDevice2 : J :=
  J.obj
    [ ("alias", J.str "Lamp")
    , ("deviceId", J.str "D2")
    , ("appServerUrl", J.str "https://y") ]

/-- A device with a different alias, placed before the Lamp devices. -/
def fanDevice : J :=
  J.obj
    [ ("alias", J.str "Fan")
    , ("deviceId", J.str "D0")
    , ("appServerUrl", J.str "https://z") ]

/-- A client state whose cached list holds a non-matching device followed
by two devices with the same alias. -/
def sDup : TPLink :=
  { username := "u", password := "p", token := "T1"
  , device_list := some (J.arr [fanDevice, lampDevice, lampDevice2]) }

/-- A client state whose device list was fetched and came back empty. -/
def sEmptyCache : TPLink :=
  { username := "u", password := "p", token := "T1"
  , device_list := some (J.arr []) }

/-- A stub transport whose getDeviceList result is the one-device Lamp
list. -/
def lampListTransport : Transport :=
  fun _ => some
    ("ok", J.obj
      [ ("error_code", J.num 0)
      , ("result", J.obj [("deviceList", J.arr [lampDevice])]) ])

/-- A stub transport answering every request successfully with a sysinfo
responseData whose relay_state is 1. -/
def okSysTransport : Transport :=
  fun _ => some
    ("ok", J.obj
      [ ("error_code", J.num 0)
      , ("result", J.obj
          [ ("responseData", J.obj
              [ ("system", J.obj
                  [ ("get_sysinfo", J.obj [("relay_state", J.num 1)]) ]) ]) ]) ])

/-- A request envelope with an empty parameter map. -/
def noParamsRequest : Request :=
  { method := "POST", url := "https://x", params := [], headers := [], data := J.null }

/-- The key=value pairs of the parameter list, each followed by an
ampersand, concatenated: the exact string the form_url loop appends. -/
def joinAmp : List (String × String) → String
  | [] => ""
  | p :: ps => p.1 ++ "=" ++ p.2 ++ "&" ++ joinAmp ps

/-- The key=value pairs joined by ampersands with no trailing ampersand:
the serialization the specification describes (note that neither keys
nor values are altered in any way, so no percent-encoding happens). -/
def joinParams : List (String × String) → String
  | [] => ""
  | [p] => p.1 ++ "=" ++ p.2
  | p :: q :: rest => p.1 ++ "=" ++ p.2 ++ "&" ++ joinParams (q :: rest)

/-
  Helper lemmas.
-/

/-- Python equality against a string literal holds exactly for the equal
string value. -/
theorem pyEqStr_iff (a : J) (t : String) : pyEqStr a t = true ↔ a = J.str t := by
  cases a <;> simp [pyEqStr]

/-- When every scanned device has an alias entry, the lookup loop never
raises. -/
theorem find_loop_isOk (l : List J) (al : String)
    (h : ∀ d ∈ l, (J.get d "alias").isSome) :
    ∃ r, TPLink.find_loop l al = .ok r := by
  induction l with
  | nil => exact ⟨none, rfl⟩
  | cons d rest ih =>
    obtain ⟨a, ha⟩ := Option.isSome_iff_exists.mp (h d (List.mem_cons_self d rest))
    obtain ⟨r, hr⟩ := ih (fun d' h' => h d' (List.mem_cons_of_mem _ h'))
    by_cases hp : pyEqStr a al = true
    · exact ⟨some d, by simp [TPLink.find_loop, J.getE, ha, hp]⟩
    · exact ⟨r, by simp [TPLink.find_loop, J.getE, ha, hp, hr]⟩

/-- If no device in the list has the requested alias (and each has an
alias entry), the lookup loop returns none. -/
theorem find_loop_none_of_no_match (l : List J) (al : String)
    (hkeys : ∀ d ∈ l, (J.get d "alias").isSome)
    (hno : ∀ d ∈ l, J.get d "alias" ≠ some (J.str al)) :
    TPLink.find_loop l al = .ok none := by
  induction l with
  | nil => rfl
  | cons d rest ih =>
    obtain ⟨a, ha⟩ :=
      Option.isSome_iff_exists.mp (hkeys d (List.mem_cons_self d rest))
    have hne : a ≠ J.str al := by
      intro he
      exact hno d (List.mem_cons_self d rest) (by rw [ha, he])
    have hp : pyEqStr a al = false := by
      rw [Bool.eq_false_iff]
      intro hc
      exact hne ((pyEqStr_iff a al).mp hc)
    have htail :=
      ih (fun d' h' => hkeys d' (List.mem_cons_of_mem _ h'))
        (fun d' h' => hno d' (List.mem_cons_of_mem _ h'))
    simp [TPLink.find_loop, J.getE, ha, hp, htail]

/-- If the lookup loop returns none, no device in the list matches. -/
theorem find_loop_none_no_match (l : List J) (al : String)
    (h : TPLink.find_loop l al = .ok none) :
    ∀ d ∈ l, J.get d "alias" ≠ some (J.str al) := by
  induction l with
  | nil => intro d hd; cases hd
  | cons d0 rest ih =>
    intro d hd
    cases hg : J.get d0 "alias" with
    | none => simp [TPLink.find_loop, J.getE, hg] at h
    | some a =>
      by_cases hp : pyEqStr a al = true
      · simp [TPLink.find_loop, J.getE, hg, hp] at h
      · have hrest : TPLink.find_loop rest al = .ok none := by
          simpa [TPLink.find_loop, J.getE, hg, hp] using h
        rcases List.mem_cons.mp hd with he | hm
        · subst he
          rw [hg]
          intro hc
          rw [Option.some.injEq] at hc
          exact hp ((pyEqStr_iff a al).mpr hc)
        · exact ih hrest d hm

/-- A device returned by the lookup loop is in the list and its alias
entry is exactly the requested alias. -/
theorem find_loop_some_mem (l : List J) (al : String) (d : J)
    (h : TPLink.find_loop l al = .ok (some d)) :
    d ∈ l ∧ J.get d "alias" = some (J.str al) := by
  induction l with
  | nil => simp [TPLink.find_loop] at h
  | cons d0 rest ih =>
    cases hg : J.get d0 "alias" with
    | none => simp [TPLink.find_loop, J.getE, hg] at h
    | some a =>
      by_cases hp : pyEqStr a al = true
      · have hd : d0 = d := by
          simpa [TPLink.find_loop, J.getE, hg, hp] using h
        subst hd
        exact ⟨List.mem_cons_self d0 rest,
          by rw [hg, Option.some.injEq]; exact (pyEqStr_iff a al).mp hp⟩
      · have hrest : TPLink.find_loop rest al = .ok (some d) := by
          simpa [TPLink.find_loop, J.getE, hg, hp] using h
        obtain ⟨hm, hal⟩ := ih hrest
        exact ⟨List.mem_cons_of_mem _ hm, hal⟩

/-- The lookup loop returns the first matching device, never reaching
anything after it. -/
theorem find_loop_append_first (l1 : List J) (d : J) (l2 : List J) (al : String)
    (hpre : ∀ d' ∈ l1, ∃ a, J.get d' "alias" = some a ∧ a ≠ J.str al)
    (hd : J.get d "alias" = some (J.str al)) :
    TPLink.find_loop (l1 ++ d :: l2) al = .ok (some d) := by
  induction l1 with
  | nil =>
    have hp : pyEqStr (J.str al) al = true := (pyEqStr_iff _ al).mpr rfl
    simp [TPLink.find_loop, J.getE, hd, hp]
  | cons d0 rest ih =>
    obtain ⟨a, ha, hne⟩ := hpre d0 (List.mem_cons_self d0 rest)
    have hp : pyEqStr a al = false := by
      rw [Bool.eq_false_iff]
      intro hc
      exact hne ((pyEqStr_iff a al).mp hc)
    have htail := ih (fun d' h' => hpre d' (List.mem_cons_of_mem _ h'))
    simp [TPLink.find_loop, J.getE, ha, hp, htail]

/-- send_request emits exactly one request event, whatever the server
answers. -/
theorem send_request_events (t : Transport) (r : Request)
    (res : Except Err J) (evs : List Event)
    (h : TPLink.send_request t r = (res, evs)) : evs = [Event.request r] := by
  unfold TPLink.send_request at h
  repeat' split at h
  all_goals (cases h; rfl)

/-- set_relay_state never changes the client state, in any branch. -/
theorem set_relay_state_frame (t : Transport) (s : TPLink) (al : String) (st : Int)
    (res : Except Err J) (s' : TPLink) (evs : List Event)
    (h : TPLink.set_relay_state t s al st = (res, s', evs)) : s' = s := by
  unfold TPLink.set_relay_state at h
  repeat' split at h
  all_goals (cases h; rfl)

/-- get_sys_info never changes the client state, in any branch. -/
theorem get_sys_info_frame (t : Transport) (s : TPLink) (al : String)
    (res : Except Err J) (s' : TPLink) (evs : List Event)
    (h : TPLink.get_sys_info t s al = (res, s', evs)) : s' = s := by
  unfold TPLink.get_sys_info at h
  repeat' split at h
  all_goals (cases h; rfl)

/-
  Claim theorems.
-/

/-- C1: against a stubbed server answering every request with error_code
1, send_request does not fail with a ServerError carrying the raw body;
it returns the dict holding the raw body under the error key as a
normal value (its own docstring promises a RuntimeError on server
error).  Every client method that issues such a request then fails with
a KeyError on the missing result field it tries to read (token,
deviceList, responseData), from which the raw response body is not
retrievable. -/
theorem C1_error_code_keyerror_not_server_error :
    TPLink.send_request errTransport (TPLink.device_list_request "T1") =
      (.ok (J.obj [("error", J.str errBody)]),
        [.request (TPLink.device_list_request "T1")])
    ∧ TPLink.init errTransport "u" "p" =
        (.error (.keyError "token"),
          [.request (TPLink.login_request "u" "p")])
    ∧ TPLink.get_device_list errTransport sFresh =
        (.error (.keyError "deviceList"), sFresh,
          [.request (TPLink.device_list_request "T1")])
    ∧ TPLink.set_relay_state errTransport sLamp "Lamp" 1 =
        (.error (.keyError "responseData"), sLamp,
          [.request (TPLink.relay_request "T1" "https://x" (J.str "D1") 1)])
    ∧ TPLink.turn_on errTransport sLamp "Lamp" =
        (.error (.keyError "responseData"), sLamp,
          [.request (TPLink.relay_request "T1" "https://x" (J.str "D1") 1)])
    ∧ TPLink.turn_off errTransport sLamp "Lamp" =
        (.error (.keyError "responseData"), sLamp,
          [.request (TPLink.relay_request "T1" "https://x" (J.str "D1") 0)])
    ∧ TPLink.powercycle errTransport sLamp "Lamp" =
        (.error (.keyError "responseData"), sLamp,
          [.request (TPLink.relay_request "T1" "https://x" (J.str "D1") 0)])
    ∧ TPLink.get_sys_info errTransport sLamp "Lamp" =
        (.error (.keyError "responseData"), sLamp,
          [.request (TPLink.sysinfo_request "T1" "https://x" (J.str "D1"))])
    ∧ TPLink.is_on errTransport sLamp "Lamp" =
        (.error (.keyError "responseData"), sLamp,
          [.request (TPLink.sysinfo_request "T1" "https://x" (J.str "D1"))])
    ∧ TPLink.is_off errTransport sLamp "Lamp" =
        (.error (.keyError "responseData"), sLamp,
          [.request (TPLink.sysinfo_request "T1" "https://x" (J.str "D1"))]) :=
  ⟨rfl, rfl, rfl, rfl, rfl, rfl, rfl, rfl, rfl, rfl⟩

/-- C2: for every cached device list whose entries have alias fields,
get_device never raises, returns a device of the list whose alias field
equals the requested alias exactly (and case-sensitively, since string
equality is exact), and returns none exactly when no device in the list
carries that alias. -/
theorem C2_get_device_exact_match (s : TPLink) (l : List J) (al : String)
    (hs : s.device_list = some (J.arr l))
    (hkeys : ∀ d ∈ l, (J.get d "alias").isSome) :
    ∃ r, TPLink.get_device s al = .ok r
      ∧ (r = none ↔ ∀ d ∈ l, J.get d "alias" ≠ some (J.str al))
      ∧ (∀ d, r = some d → d ∈ l ∧ J.get d "alias" = some (J.str al)) := by
  obtain ⟨r, hr⟩ := find_loop_isOk l al hkeys
  refine ⟨r, by simp [TPLink.get_device, TPLink.iterList, hs, hr], ?_, ?_⟩
  · constructor
    · intro he
      subst he
      exact find_loop_none_no_match l al hr
    · intro hno
      have := find_loop_none_of_no_match l al hkeys hno
      rw [hr] at this
      exact (Except.ok.injEq _ _).mp this
  · intro d hd
    subst hd
    exact find_loop_some_mem l al d hr

/-- Witness for C2 at the one-device Lamp list and the alias Lamp. -/
theorem C2_get_device_exact_match_witness :
    (sLamp.device_list = some (J.arr [lampDevice])
      ∧ ∀ d ∈ [lampDevice], (J.get d "alias").isSome)
    ∧ ∃ r, TPLink.get_device sLamp "Lamp" = .ok r
        ∧ (r = none ↔ ∀ d ∈ [lampDevice], J.get d "alias" ≠ some (J.str "Lamp"))
        ∧ (∀ d, r = some d → d ∈ [lampDevice]
            ∧ J.get d "alias" = some (J.str "Lamp")) := by
  have hkeys : ∀ d ∈ [lampDevice], (J.get d "alias").isSome := by
    intro d hd
    rw [List.mem_singleton] at hd
    subst hd
    rfl
  exact ⟨⟨rfl, hkeys⟩, C2_get_device_exact_match sLamp [lampDevice] "Lamp" rfl hkeys⟩

/-- C3: when no device in the cached list carries the requested alias,
every control method fails with the RuntimeError whose message names the
missing device (the realization of DeviceNotFoundError in this code)
and issues no network request and no sleep. -/
theorem C3_device_not_found_no_request (t : Transport) (s : TPLink)
    (l : List J) (al : String)
    (hs : s.device_list = some (J.arr l))
    (hkeys : ∀ d ∈ l, (J.get d "alias").isSome)
    (hno : ∀ d ∈ l, J.get d "alias" ≠ some (J.str al)) :
    (∀ st : Int, TPLink.set_relay_state t s al st =
      (.error (.runtimeError ("Cannot find device: " ++ al)), s, []))
    ∧ TPLink.turn_on t s al =
        (.error (.runtimeError ("Cannot find device: " ++ al)), s, [])
    ∧ TPLink.turn_off t s al =
        (.error (.runtimeError ("Cannot find device: " ++ al)), s, [])
    ∧ TPLink.powercycle t s al =
        (.error (.runtimeError ("Cannot find device: " ++ al)), s, [])
    ∧ TPLink.get_sys_info t s al =
        (.error (.runtimeError ("Cannot find device: " ++ al)), s, [])
    ∧ TPLink.is_on t s al =
        (.error (.runtimeError ("Cannot find device: " ++ al)), s, [])
    ∧ TPLink.is_off t s al =
        (.error (.runtimeError ("Cannot find device: " ++ al)), s, []) := by
  have hdev : TPLink.get_device s al = .ok none := by
    simp [TPLink.get_device, TPLink.iterList, hs,
      find_loop_none_of_no_match l al hkeys hno]
  have hsrs : ∀ st : Int, TPLink.set_relay_state t s al st =
      (.error (.runtimeError ("Cannot find device: " ++ al)), s, []) := by
    intro st
    unfold TPLink.set_relay_state
    rw [hdev]
  have hsys : TPLink.get_sys_info t s al =
      (.error (.runtimeError ("Cannot find device: " ++ al)), s, []) := by
    unfold TPLink.get_sys_info
    rw [hdev]
  refine ⟨hsrs, hsrs 1, hsrs 0, ?_, hsys, ?_, ?_⟩
  · unfold TPLink.powercycle TPLink.turn_off
    rw [hsrs 0]
  · unfold TPLink.is_on
    rw [hsys]
  · unfold TPLink.is_off TPLink.is_on
    rw [hsys]

/-- Witness for C3 at the one-device Lamp list and the absent alias
Ghost, under the always-succeeding stub transport. -/
theorem C3_device_not_found_no_request_witness :
    (sLamp.device_list = some (J.arr [lampDevice])
      ∧ (∀ d ∈ [lampDevice], (J.get d "alias").isSome)
      ∧ (∀ d ∈ [lampDevice], J.get d "alias" ≠ some (J.str "Ghost")))
    ∧ TPLink.powercycle okRelayTransport sLamp "Ghost" =
        (.error (.runtimeError ("Cannot find device: " ++ "Ghost")), sLamp, [])
    ∧ TPLink.is_on okRelayTransport sLamp "Ghost" =
        (.error (.runtimeError ("Cannot find device: " ++ "Ghost")), sLamp, []) := by
  have hkeys : ∀ d ∈ [lampDevice], (J.get d "alias").isSome := by
    intro d hd
    rw [List.mem_singleton] at hd
    subst hd
    rfl
  have hno : ∀ d ∈ [lampDevice], J.get d "alias" ≠ some (J.str "Ghost") := by
    intro d hd
    rw [List.mem_singleton] at hd
    subst hd
    intro hc
    have : J.str "Lamp" = J.str "Ghost" := (Option.some.injEq _ _).mp hc
    simp at this
  have h := C3_device_not_found_no_request okRelayTransport sLamp
    [lampDevice] "Ghost" rfl hkeys hno
  exact ⟨⟨rfl, hkeys, hno⟩, h.2.2.2.1, h.2.2.2.2.2.1⟩

/-- C9: get_device returns the first device of the cached list whose
alias matches, regardless of what follows it, so lookup on duplicate
aliases is deterministic and never reaches later duplicates. -/
theorem C9_duplicate_alias_first_wins (s : TPLink) (l1 l2 : List J) (d : J)
    (al : String)
    (hs : s.device_list = some (J.arr (l1 ++ d :: l2)))
    (hpre : ∀ d' ∈ l1, ∃ a, J.get d' "alias" = some a ∧ a ≠ J.str al)
    (hd : J.get d "alias" = some (J.str al)) :
    TPLink.get_device s al = .ok (some d) := by
  simp [TPLink.get_device, TPLink.iterList, hs,
    find_loop_append_first l1 d l2 al hpre hd]

/-- Witness for C9: with a non-matching device followed by two devices
that both carry the alias Lamp, get_device returns the first of the two
duplicates. -/
theorem C9_duplicate_alias_first_wins_witness :
    (sDup.device_list = some (J.arr ([fanDevice] ++ lampDevice :: [lampDevice2]))
      ∧ (∀ d' ∈ [fanDevice], ∃ a, J.get d' "alias" = some a ∧ a ≠ J.str "Lamp")
      ∧ J.get lampDevice "alias" = some (J.str "Lamp"))
    ∧ TPLink.get_device sDup "Lamp" = .ok (some lampDevice) := by
  have hpre : ∀ d' ∈ [fanDevice], ∃ a, J.get d' "alias" = some a ∧ a ≠ J.str "Lamp" := by
    intro d' hd'
    rw [List.mem_singleton] at hd'
    subst hd'
    refine ⟨J.str "Fan", rfl, ?_⟩
    intro hc
    simp at hc
  exact ⟨⟨rfl, hpre, rfl⟩,
    C9_duplicate_alias_first_wins sDup [fanDevice] [lampDevice2] lampDevice
      "Lamp" rfl hpre rfl⟩

/-- A successful fetch stores the fetched list on the client state. -/
theorem fetch_device_list_ok (t : Transport) (s s' : TPLink) (dl : J)
    (evs : List Event)
    (h : TPLink.fetch_device_list t s = (.ok dl, s', evs)) :
    s' = { s with device_list := some dl } := by
  unfold TPLink.fetch_device_list at h
  repeat' split at h
  all_goals cases h <;> rfl

/-- C4 counterexample: after a successful fetch of the EMPTY device
list, a further get_device_list call contacts the server again (the
cached empty list is falsy), so two calls issue two requests, refuting
at-most-one-request-in-total. -/
theorem C4_counterexample_empty_list_refetches :
    TPLink.get_device_list emptyListTransport sFresh =
      (.ok (J.arr []), sEmptyCache,
        [.request (TPLink.device_list_request "T1")])
    ∧ TPLink.get_device_list emptyListTransport sEmptyCache =
      (.ok (J.arr []), sEmptyCache,
        [.request (TPLink.device_list_request "T1")]) :=
  ⟨rfl, rfl⟩

/-- C4 amended: once a get_device_list call has succeeded with a TRUTHY
(in particular nonempty) list, every subsequent call returns the cached
list and issues no network request; a fetched empty list is falsy and
triggers a fresh fetch on every call. -/
theorem C4_cache_no_second_request (t : Transport) (s s' : TPLink) (dl : J)
    (evs : List Event)
    (h : TPLink.get_device_list t s = (.ok dl, s', evs))
    (htruthy : dl.truthy = true) :
    TPLink.get_device_list t s' = (.ok dl, s', []) := by
  unfold TPLink.get_device_list at h
  cases hdl : s.device_list with
  | none =>
    rw [hdl] at h
    have hs' := fetch_device_list_ok t s s' dl evs h
    subst hs'
    unfold TPLink.get_device_list
    simp [htruthy]
  | some dl0 =>
    rw [hdl] at h
    by_cases ht0 : dl0.truthy = true
    · simp only [ht0, if_true] at h
      cases h
      unfold TPLink.get_device_list
      rw [hdl]
      simp [ht0]
    · simp only [ht0, if_false] at h
      have hs' := fetch_device_list_ok t s s' dl evs h
      subst hs'
      unfold TPLink.get_device_list
      simp [htruthy]

/-- Witness for C4 amended: fetching the nonempty Lamp list once, the
second call serves the cache and issues no request. -/
theorem C4_cache_no_second_request_witness :
    (TPLink.get_device_list lampListTransport sFresh =
        (.ok (J.arr [lampDevice]), sLamp,
          [.request (TPLink.device_list_request "T1")])
      ∧ (J.arr [lampDevice]).truthy = true)
    ∧ TPLink.get_device_list lampListTransport sLamp =
        (.ok (J.arr [lampDevice]), sLamp, []) :=
  ⟨⟨rfl, rfl⟩,
    C4_cache_no_second_request lampListTransport sFresh sLamp
      (J.arr [lampDevice]) [.request (TPLink.device_list_request "T1")] rfl rfl⟩

/-- A successful set_relay_state call: the device resolves, the server
answers with error_code 0 and a result carrying responseData, and the
call returns that responseData having issued exactly the one relay
request. -/
theorem set_relay_state_ok (t : Transport) (s : TPLink) (al : String)
    (st : Int) (d : J) (u : String) (did : J) (raw : String)
    (resp res rd : J)
    (hdev : TPLink.get_device s al = .ok (some d))
    (htr : d.truthy = true)
    (hurl : J.get d "appServerUrl" = some (J.str u))
    (hid : J.get d "deviceId" = some did)
    (ht : t (TPLink.relay_request s.token u did st) = some (raw, resp))
    (he : J.get resp "error_code" = some (J.num 0))
    (hr : J.get resp "result" = some res)
    (hrd : J.get res "responseData" = some rd) :
    TPLink.set_relay_state t s al st =
      (.ok rd, s, [.request (TPLink.relay_request s.token u did st)]) := by
  have hz : pyEqInt (J.num 0) 0 = true := rfl
  simp only [TPLink.set_relay_state, hdev, htr, Bool.not_true, Bool.false_eq_true,
    if_false, J.getE, hurl, hid, TPLink.send_request, ht, he, hz, hr, hrd]

/-- C5 counterexample: against a stubbed server answering with
error_code 1, powercycle issues only ONE relay request, performs no
sleep, and fails instead of returning Done, so the claimed behavior
does not hold regardless of the content of the responses. -/
theorem C5_counterexample_error_response_aborts :
    TPLink.powercycle errTransport sLamp "Lamp" =
      (.error (.keyError "responseData"), sLamp,
        [.request (TPLink.relay_request "T1" "https://x" (J.str "D1") 0)])
    ∧ (TPLink.powercycle errTransport sLamp "Lamp").1 ≠ .ok "Done" :=
  ⟨rfl, fun hc => Except.noConfusion hc⟩

/-- C5 amended: provided each of the two relay-state responses has
error_code 0 and a result carrying responseData, powercycle issues
exactly two relay requests in order (state 0, then state 1) separated by
the blocking five-second sleep, and returns the literal string Done
regardless of the content rd0, rd1 of the two responseData payloads. -/
theorem C5_powercycle_two_requests (t : Transport) (s : TPLink) (al : String)
    (d : J) (u : String) (did : J) (raw0 raw1 : String)
    (resp0 resp1 res0 res1 rd0 rd1 : J)
    (hdev : TPLink.get_device s al = .ok (some d))
    (htr : d.truthy = true)
    (hurl : J.get d "appServerUrl" = some (J.str u))
    (hid : J.get d "deviceId" = some did)
    (h0 : t (TPLink.relay_request s.token u did 0) = some (raw0, resp0))
    (h0e : J.get resp0 "error_code" = some (J.num 0))
    (h0r : J.get resp0 "result" = some res0)
    (h0d : J.get res0 "responseData" = some rd0)
    (h1 : t (TPLink.relay_request s.token u did 1) = some (raw1, resp1))
    (h1e : J.get resp1 "error_code" = some (J.num 0))
    (h1r : J.get resp1 "result" = some res1)
    (h1d : J.get res1 "responseData" = some rd1) :
    TPLink.powercycle t s al =
      (.ok "Done", s,
        [ .request (TPLink.relay_request s.token u did 0)
        , .sleep 5
        , .request (TPLink.relay_request s.token u did 1) ]) := by
  have hoff : TPLink.turn_off t s al =
      (.ok rd0, s, [.request (TPLink.relay_request s.token u did 0)]) :=
    set_relay_state_ok t s al 0 d u did raw0 resp0 res0 rd0
      hdev htr hurl hid h0 h0e h0r h0d
  have hon : TPLink.turn_on t s al =
      (.ok rd1, s, [.request (TPLink.relay_request s.token u did 1)]) :=
    set_relay_state_ok t s al 1 d u did raw1 resp1 res1 rd1
      hdev htr hurl hid h1 h1e h1r h1d
  simp only [TPLink.powercycle, hoff, hon]
  rfl

/-- Witness for C5 amended at the Lamp device and the stub transport
that always succeeds. -/
theorem C5_powercycle_two_requests_witness :
    (TPLink.get_device sLamp "Lamp" = .ok (some lampDevice)
      ∧ lampDevice.truthy = true
      ∧ J.get lampDevice "appServerUrl" = some (J.str "https://x")
      ∧ J.get lampDevice "deviceId" = some (J.str "D1"))
    ∧ TPLink.powercycle okRelayTransport sLamp "Lamp" =
        (.ok "Done", sLamp,
          [ .request (TPLink.relay_request "T1" "https://x" (J.str "D1") 0)
          , .sleep 5
          , .request (TPLink.relay_request "T1" "https://x" (J.str "D1") 1) ]) :=
  ⟨⟨rfl, rfl, rfl, rfl⟩,
    C5_powercycle_two_requests okRelayTransport sLamp "Lamp" lampDevice
      "https://x" (J.str "D1") "ok" "ok"
      (J.obj
        [ ("error_code", J.num 0)
        , ("result", J.obj [("responseData", J.obj [("ignored", J.num 7)])]) ])
      (J.obj
        [ ("error_code", J.num 0)
        , ("result", J.obj [("responseData", J.obj [("ignored", J.num 7)])]) ])
      (J.obj [("responseData", J.obj [("ignored", J.num 7)])])
      (J.obj [("responseData", J.obj [("ignored", J.num 7)])])
      (J.obj [("ignored", J.num 7)]) (J.obj [("ignored", J.num 7)])
      rfl rfl rfl rfl rfl rfl rfl rfl rfl rfl rfl rfl⟩

/-- C6: when the alias resolves to a device with appServerUrl u and a
deviceId, set_relay_state issues exactly one request, namely the
passthrough request addressed to u (not the fixed cloud endpoint) whose
body has method passthrough and params keyed by the deviceId with
requestData system.set_relay_state.state; and turn_on and turn_off are
set_relay_state with state 1 and 0. -/
theorem C6_set_relay_state_request_shape (t : Transport) (s : TPLink)
    (al : String) (d : J) (u : String) (did : J) (st : Int)
    (hdev : TPLink.get_device s al = .ok (some d))
    (htr : d.truthy = true)
    (hurl : J.get d "appServerUrl" = some (J.str u))
    (hid : J.get d "deviceId" = some did) :
    (∃ res s', TPLink.set_relay_state t s al st =
        (res, s', [Event.request (TPLink.relay_request s.token u did st)]))
    ∧ (TPLink.relay_request s.token u did st).url = u
    ∧ (TPLink.relay_request s.token u did st).data =
        J.obj
          [ ("method", J.str "passthrough")
          , ("params", J.obj
              [ ("deviceId", did)
              , ("requestData", J.obj
                  [ ("system", J.obj
                      [ ("set_relay_state", J.obj [("state", J.num st)]) ]) ]) ]) ]
    ∧ TPLink.turn_on t s al = TPLink.set_relay_state t s al 1
    ∧ TPLink.turn_off t s al = TPLink.set_relay_state t s al 0 := by
  refine ⟨?_, rfl, rfl, rfl, rfl⟩
  rcases hsr : TPLink.send_request t (TPLink.relay_request s.token u did st)
    with ⟨res0, evs0⟩
  have hevs := send_request_events _ _ _ _ hsr
  subst hevs
  cases res0 with
  | error e =>
    exact ⟨.error e, s, by
      simp only [TPLink.set_relay_state, hdev, htr, Bool.not_true,
        Bool.false_eq_true, if_false, J.getE, hurl, hid, hsr]⟩
  | ok r0 =>
    cases hrd : r0.get "responseData" with
    | none =>
      exact ⟨.error (.keyError "responseData"), s, by
        simp only [TPLink.set_relay_state, hdev, htr, Bool.not_true,
          Bool.false_eq_true, if_false, J.getE, hurl, hid, hsr, hrd]⟩
    | some rd =>
      exact ⟨.ok rd, s, by
        simp only [TPLink.set_relay_state, hdev, htr, Bool.not_true,
          Bool.false_eq_true, if_false, J.getE, hurl, hid, hsr, hrd]⟩

/-- Witness for C6 at the Lamp device with state 1. -/
theorem C6_set_relay_state_request_shape_witness :
    (TPLink.get_device sLamp "Lamp" = .ok (some lampDevice)
      ∧ lampDevice.truthy = true
      ∧ J.get lampDevice "appServerUrl" = some (J.str "https://x")
      ∧ J.get lampDevice "deviceId" = some (J.str "D1"))
    ∧ ((∃ res s', TPLink.set_relay_state okRelayTransport sLamp "Lamp" 1 =
          (res, s',
            [Event.request (TPLink.relay_request "T1" "https://x" (J.str "D1") 1)]))
        ∧ (TPLink.relay_request "T1" "https://x" (J.str "D1") 1).url = "https://x"
        ∧ (TPLink.relay_request "T1" "https://x" (J.str "D1") 1).data =
            J.obj
              [ ("method", J.str "passthrough")
              , ("params", J.obj
                  [ ("deviceId", J.str "D1")
                  , ("requestData", J.obj
                      [ ("system", J.obj
                          [ ("set_relay_state", J.obj [("state", J.num 1)]) ]) ]) ]) ]
        ∧ TPLink.turn_on okRelayTransport sLamp "Lamp" =
            TPLink.set_relay_state okRelayTransport sLamp "Lamp" 1
        ∧ TPLink.turn_off okRelayTransport sLamp "Lamp" =
            TPLink.set_relay_state okRelayTransport sLamp "Lamp" 0) :=
  ⟨⟨rfl, rfl, rfl, rfl⟩,
    C6_set_relay_state_request_shape okRelayTransport sLamp "Lamp" lampDevice
      "https://x" (J.str "D1") 1 rfl rfl rfl rfl⟩

/-- C7: when get_sys_info succeeds and the responseData carries the path
system.get_sysinfo.relay_state with value v, is_on returns exactly the
Python comparison v == 1 (true when v is the number 1, false for any
other number), and is_off returns its Boolean negation for the same
alias and the same responses. -/
theorem C7_is_on_relay_state (t : Transport) (s s' : TPLink) (al : String)
    (d sys info v : J) (evs : List Event)
    (hsys : TPLink.get_sys_info t s al = (.ok d, s', evs))
    (h1 : J.get d "system" = some sys)
    (h2 : J.get sys "get_sysinfo" = some info)
    (h3 : J.get info "relay_state" = some v) :
    TPLink.is_on t s al = (.ok (pyEqInt v 1), s', evs)
    ∧ TPLink.is_off t s al = (.ok (!(pyEqInt v 1)), s', evs)
    ∧ (v = J.num 1 → TPLink.is_on t s al = (.ok true, s', evs))
    ∧ (∀ n : Int, v = J.num n → n ≠ 1 →
        TPLink.is_on t s al = (.ok false, s', evs)) := by
  have hon : TPLink.is_on t s al = (.ok (pyEqInt v 1), s', evs) := by
    simp only [TPLink.is_on, hsys, J.getE, h1, h2, h3]
  refine ⟨hon, ?_, ?_, ?_⟩
  · simp only [TPLink.is_off, hon]
  · intro hv
    subst hv
    simpa using hon
  · intro n hv hn
    subst hv
    have : pyEqInt (J.num n) 1 = false := by
      simp [pyEqInt, hn]
    rw [this] at hon
    exact hon

/-- Witness for C7 at the Lamp device against a stub whose sysinfo
relay_state is 1: is_on yields true and is_off yields false. -/
theorem C7_is_on_relay_state_witness :
    (TPLink.get_sys_info okSysTransport sLamp "Lamp" =
        (.ok (J.obj
            [ ("system", J.obj
                [ ("get_sysinfo", J.obj [("relay_state", J.num 1)]) ]) ]),
          sLamp,
          [.request (TPLink.sysinfo_request "T1" "https://x" (J.str "D1"))]))
    ∧ TPLink.is_on okSysTransport sLamp "Lamp" =
        (.ok true, sLamp,
          [.request (TPLink.sysinfo_request "T1" "https://x" (J.str "D1"))])
    ∧ TPLink.is_off okSysTransport sLamp "Lamp" =
        (.ok false, sLamp,
          [.request (TPLink.sysinfo_request "T1" "https://x" (J.str "D1"))]) := by
  have h := C7_is_on_relay_state okSysTransport sLamp sLamp "Lamp"
    (J.obj
      [ ("system", J.obj
          [ ("get_sysinfo", J.obj [("relay_state", J.num 1)]) ]) ])
    (J.obj [ ("get_sysinfo", J.obj [("relay_state", J.num 1)]) ])
    (J.obj [("relay_state", J.num 1)])
    (J.num 1)
    [.request (TPLink.sysinfo_request "T1" "https://x" (J.str "D1"))]
    rfl rfl rfl rfl
  exact ⟨rfl, h.1, h.2.1⟩

/-- C10: no control method changes the client state: whatever the
transport answers and whether the call succeeds or fails, the state
(username, password, token and cached device list) after the call is
the state before it. -/
theorem C10_control_methods_frame (t : Transport) (s : TPLink) (al : String)
    (st : Int) :
    (TPLink.set_relay_state t s al st).2.1 = s
    ∧ (TPLink.turn_on t s al).2.1 = s
    ∧ (TPLink.turn_off t s al).2.1 = s
    ∧ (TPLink.powercycle t s al).2.1 = s
    ∧ (TPLink.get_sys_info t s al).2.1 = s
    ∧ (TPLink.is_on t s al).2.1 = s
    ∧ (TPLink.is_off t s al).2.1 = s := by
  have hsrs : ∀ st' : Int, (TPLink.set_relay_state t s al st').2.1 = s := by
    intro st'
    rcases h : TPLink.set_relay_state t s al st' with ⟨res, s', evs⟩
    exact set_relay_state_frame t s al st' res s' evs h
  have hsys : (TPLink.get_sys_info t s al).2.1 = s := by
    rcases h : TPLink.get_sys_info t s al with ⟨res, s', evs⟩
    exact get_sys_info_frame t s al res s' evs h
  have hcycle : (TPLink.powercycle t s al).2.1 = s := by
    rcases hoff : TPLink.turn_off t s al with ⟨res0, s1, evs1⟩
    have hs1 : s1 = s := by
      have h0 : (TPLink.turn_off t s al).2.1 = s := hsrs 0
      rw [hoff] at h0
      exact h0
    cases res0 with
    | error e =>
      simp only [TPLink.powercycle, hoff]
      exact hs1
    | ok r0 =>
      rcases hon : TPLink.turn_on t s1 al with ⟨res1, s2, evs2⟩
      have hs2 : s2 = s1 := set_relay_state_frame t s1 al 1 res1 s2 evs2 hon
      cases res1 with
      | error e =>
        simp only [TPLink.powercycle, hoff, hon]
        rw [hs2, hs1]
      | ok r1 =>
        simp only [TPLink.powercycle, hoff, hon]
        rw [hs2, hs1]
  have hison : (TPLink.is_on t s al).2.1 = s := by
    rcases hsi : TPLink.get_sys_info t s al with ⟨res0, s0, evs0⟩
    have hs0 : s0 = s := get_sys_info_frame t s al res0 s0 evs0 hsi
    cases res0 with
    | error e =>
      have hv : TPLink.is_on t s al = (.error e, s0, evs0) := by
        simp only [TPLink.is_on, hsi]
      rw [hv]
      exact hs0
    | ok d =>
      cases hg1 : d.getE "system" with
      | error e =>
        have hv : TPLink.is_on t s al = (.error e, s0, evs0) := by
          simp only [TPLink.is_on, hsi, hg1]
        rw [hv]
        exact hs0
      | ok sys =>
        cases hg2 : sys.getE "get_sysinfo" with
        | error e =>
          have hv : TPLink.is_on t s al = (.error e, s0, evs0) := by
            simp only [TPLink.is_on, hsi, hg1, hg2]
          rw [hv]
          exact hs0
        | ok info =>
          cases hg3 : info.getE "relay_state" with
          | error e =>
            have hv : TPLink.is_on t s al = (.error e, s0, evs0) := by
              simp only [TPLink.is_on, hsi, hg1, hg2, hg3]
            rw [hv]
            exact hs0
          | ok v =>
            have hv : TPLink.is_on t s al = (.ok (pyEqInt v 1), s0, evs0) := by
              simp only [TPLink.is_on, hsi, hg1, hg2, hg3]
            rw [hv]
            exact hs0
  have hisoff : (TPLink.is_off t s al).2.1 = s := by
    rcases hio : TPLink.is_on t s al with ⟨res, s1, evs⟩
    have hs1 : s1 = s := by
      have := hison
      rw [hio] at this
      exact this
    cases res with
    | error e =>
      simp only [TPLink.is_off, hio]
      exact hs1
    | ok b =>
      simp only [TPLink.is_off, hio]
      exact hs1
  exact ⟨hsrs st, hsrs 1, hsrs 0, hcycle, hsys, hison, hisoff⟩

/-- Dropping one character from a string that ends in the character c
removes exactly that character. -/
theorem dropRight_one_concat (l : List Char) (c : Char) :
    (String.mk (l ++ [c])).dropRight 1 = String.mk l := by
  have hv : Substring.ValidFor [] (l ++ [c]) [] (String.mk (l ++ [c])).toSubstring :=
    String.validFor_toSubstring (String.mk (l ++ [c]))
  have hshape : (c :: l.reverse).reverse ++ ([] : List Char) = l ++ [c] := by simp
  have hv2 : Substring.ValidFor [] ((c :: l.reverse).reverse ++ [])
      [] (String.mk (l ++ [c])).toSubstring := by rw [hshape]; exact hv
  have hprevn := hv2.prevn 1
  have hbsize : (String.mk (l ++ [c])).toSubstring.bsize = String.utf8Len (l ++ [c]) :=
    hv.bsize
  have harg : String.utf8Len (l ++ [c]) = String.utf8Len (c :: l.reverse) := by
    simp
  have hdrop1 : String.utf8Len ((c :: l.reverse).drop 1) = String.utf8Len l := by
    simp
  show Substring.toString
      ⟨String.mk (l ++ [c]), 0,
        (0 : String.Pos) + (String.mk (l ++ [c])).toSubstring.prevn 1
          ⟨(String.mk (l ++ [c])).toSubstring.bsize⟩⟩ = String.mk l
  rw [hbsize, harg, hprevn, hdrop1]
  have hfin : Substring.ValidFor [] l [c]
      ⟨String.mk (l ++ [c]), 0, (0 : String.Pos) + ⟨String.utf8Len l⟩⟩ := by
    apply Substring.ValidFor.of_eq
    · simp
    · simp
    · simp
  have := hfin.toString
  simpa using this

/-- The form_url loop appends the key=value-ampersand block of each
parameter in order. -/
theorem foldl_joinAmp (l : List (String × String)) (u : String) :
    l.foldl (fun u p => u ++ p.1 ++ "=" ++ p.2 ++ "&") u = u ++ joinAmp l := by
  induction l generalizing u with
  | nil => simp [joinAmp]
  | cons p ps ih =>
    rw [List.foldl_cons, ih]
    simp [joinAmp, String.append_assoc]

/-- For a nonempty parameter list the appended blocks are the joined
pairs followed by one trailing ampersand. -/
theorem joinAmp_eq_joinParams (l : List (String × String)) (h : l ≠ []) :
    joinAmp l = joinParams l ++ "&" := by
  induction l with
  | nil => exact absurd rfl h
  | cons p ps ih =>
    cases ps with
    | nil => simp [joinAmp, joinParams]
    | cons q rest =>
      rw [show joinAmp (p :: q :: rest) =
            p.1 ++ "=" ++ p.2 ++ "&" ++ joinAmp (q :: rest) from rfl,
        ih (by simp),
        show joinParams (p :: q :: rest) =
            p.1 ++ "=" ++ p.2 ++ "&" ++ joinParams (q :: rest) from rfl]
      simp [String.append_assoc]

/-- C8 counterexample: on a request with an empty parameter map,
form_url returns the bare base URL, not the base URL followed by a
question mark as the claim requires (the final strip removes the
question mark itself). -/
theorem C8_counterexample_empty_params :
    TPLink.form_url noParamsRequest = "https://x"
    ∧ TPLink.form_url noParamsRequest ≠ noParamsRequest.url ++ "?" :=
  ⟨rfl, by decide⟩

/-- C8 amended: for every request with a NONEMPTY ordered parameter
map, form_url returns the base URL followed by a question mark and the
parameters serialized as key=value pairs joined by ampersands in map
order, with no trailing ampersand and no percent-encoding (keys and
values are concatenated verbatim); for an empty map the trailing strip
removes the question mark, leaving the bare base URL. -/
theorem C8_form_url_join (r : Request) (h : r.params ≠ []) :
    TPLink.form_url r = r.url ++ "?" ++ joinParams r.params := by
  have hfold := foldl_joinAmp r.params (r.url ++ "?")
  have hja := joinAmp_eq_joinParams r.params h
  have hdr : TPLink.form_url r =
      ((r.url ++ "?") ++ joinAmp r.params).dropRight 1 := by
    show (r.params.foldl (fun u p => u ++ p.1 ++ "=" ++ p.2 ++ "&")
        (r.url ++ "?")).dropRight 1 =
      ((r.url ++ "?") ++ joinAmp r.params).dropRight 1
    rw [hfold]
  have key : ∀ s : String, (s ++ "&").dropRight 1 = s := by
    intro s
    obtain ⟨m⟩ := s
    exact dropRight_one_concat m '&'
  rw [hdr, hja, ← String.append_assoc]
  exact key _

/-- Witness for C8 amended at a two-parameter request. -/
theorem C8_form_url_join_witness :
    ((⟨"POST", "https://wap.tplinkcloud.com",
        [("appName", "Kasa_Android"), ("token", "T1")], [], J.null⟩ : Request).params ≠ [])
    ∧ TPLink.form_url
        ⟨"POST", "https://wap.tplinkcloud.com",
          [("appName", "Kasa_Android"), ("token", "T1")], [], J.null⟩ =
      "https://wap.tplinkcloud.com" ++ "?" ++
        joinParams [("appName", "Kasa_Android"), ("token", "T1")] := by
  constructor
  · decide
  · exact C8_form_url_join
      ⟨"POST", "https://wap.tplinkcloud.com",
        [("appName", "Kasa_Android"), ("token", "T1")], [], J.null⟩
      (by decide)
